import Mathlib

/-
Shallow embedding of the container-manager core of
src/plugins/proctrack/cray_aries/proctrack_cray_aries.c (HAVE_NATIVE_CRAY
build).  The Cray job-library primitives (job_attachpid, job_detachpid,
job_getjid, job_killjid, job_waitjid, job_getpidcnt, job_getpidlist) and
the /proc control-file writes are modelled as an environment recording the
result each call would return; the pending worker thread (static
`threadid`) is modelled as a Bool threaded through each operation.
-/

namespace SlurmProctrack

/-- SLURM_SUCCESS / SLURM_ERROR return codes. -/
inductive Result
  | success
  | error
deriving DecidableEq, Repr

/-- The errno classes the plugin distinguishes; every other errno value is
`other n`. -/
inductive Errno
  | EINVAL
  | ENODATA
  | EBADF
  | other (n : Nat)
deriving DecidableEq, Repr

/-- The fields of stepd_step_rec_t read by the plugin. -/
structure StepRec where
  cont_id : Nat
  uid : Nat
  het_job_id : Nat
  job_id : Nat
  step_id : Nat
deriving DecidableEq, Repr

/-- Signal number of SIGKILL. -/
def SIGKILL : Nat := 9

/-- proctrack_p_has_pid: `getjid` is the result of job_getjid(pid)
(`none` models the (jid_t) -1 failure return).  Returns false on lookup
failure, otherwise compares the looked-up container id with cont_id. -/
def proctrack_p_has_pid (getjid : Option Nat) (cont_id : Nat) : Bool :=
  match getjid with
  | none => false
  | some jid => jid == cont_id

/-- Environment of platform-call results consumed by proctrack_p_add:
`attachResult n` is the outcome of the (n+1)-th job_attachpid(pid, cont_id)
call (`none` = success, `some e` = failure with errno e); `getjid` the
job_getjid(pid) result used by the proctrack_p_has_pid check; `detachResult`
the job_detachpid(pid) result (`some jid` = detached from container jid);
`setapidOk`, `openOk`, `writeOk` the outcomes of job_setapid, of opening
/proc/pid/task_is_app and of writing "1" to it. -/
structure AddEnv where
  proctrack_forked : Bool
  attachResult : Nat → Option Errno
  getjid : Option Nat
  detachResult : Option Nat
  setapidOk : Bool
  openOk : Bool
  writeOk : Bool

/-- Observable outcome of one proctrack_p_add call: the return code, the
worker-pending flag (`threadid`) on return, whether a pending worker was
joined, step->cont_id on return, and how many job_attachpid calls and
successful job_detachpid calls were made. -/
structure AddOutcome where
  rc : Result
  workerPending : Bool
  joined : Bool
  cont_id : Nat
  attachCalls : Nat
  detachCalls : Nat
deriving DecidableEq, Repr

/-- Tail of proctrack_p_add after the attach loop: _end_container_thread()
(which signals, joins and clears the worker iff one is pending), then
job_setapid, then the /proc/pid/task_is_app open and write, each failure
returning SLURM_ERROR. -/
def add_after_attach (env : AddEnv) (step : StepRec) (tid : Bool)
    (attachCalls detachCalls : Nat) : AddOutcome :=
  if !env.setapidOk then
    ⟨Result.error, false, tid, step.cont_id, attachCalls, detachCalls⟩
  else if !env.openOk then
    ⟨Result.error, false, tid, step.cont_id, attachCalls, detachCalls⟩
  else if !env.writeOk then
    ⟨Result.error, false, tid, step.cont_id, attachCalls, detachCalls⟩
  else
    ⟨Result.success, false, tid, step.cont_id, attachCalls, detachCalls⟩

/-- The try_again loop of proctrack_p_add, entered with the current retry
counter `count`.  Mirrors the C control flow: if not forked, call
job_attachpid; on failure with EINVAL while count < 1, return success if the
pid is already in the target container, else detach it and goto try_again
with count+1 (detach failure and every other failure return SLURM_ERROR);
on attach success (or when forked) fall through to add_after_attach. -/
def add_from (env : AddEnv) (step : StepRec) (tid : Bool) (count : Nat) :
    AddOutcome :=
  if env.proctrack_forked then
    add_after_attach env step tid 0 0
  else
    match env.attachResult count with
    | none => add_after_attach env step tid (count + 1) count
    | some e =>
      if h : e = Errno.EINVAL ∧ count < 1 then
        if proctrack_p_has_pid env.getjid step.cont_id then
          ⟨Result.success, tid, false, step.cont_id, count + 1, count⟩
        else
          match env.detachResult with
          | some _jid => add_from env step tid (count + 1)
          | none =>
            ⟨Result.error, tid, false, step.cont_id, count + 1, count⟩
      else
        ⟨Result.error, tid, false, step.cont_id, count + 1, count⟩
termination_by 1 - count
decreasing_by omega

/-- proctrack_p_add(step, pid): enter the try_again loop with count = 0.
`tid` is the worker-pending flag (static `threadid`) at entry. -/
def proctrack_p_add (env : AddEnv) (step : StepRec) (tid : Bool) :
    AddOutcome :=
  add_from env step tid 0

/-- Environment for proctrack_p_create: `create_result` is the value
(uint64_t) job_create(0, step->uid, 0) would store into step->cont_id
(2^64 - 1 models the (jid_t) -1 failure sentinel). -/
structure CreateEnv where
  proctrack_forked : Bool
  create_result : Nat

/-- Observable outcome of proctrack_p_create: return code, step->cont_id on
return, number of job_create calls made, and whether a worker thread was
spawned for the creation. -/
structure CreateOutcome where
  rc : Result
  cont_id : Nat
  createCalls : Nat
  workerSpawned : Bool
deriving DecidableEq, Repr

/-- proctrack_p_create(step): if step->cont_id is already non-zero, log
"already have a cont_id" and return SLURM_SUCCESS without any job_create
call.  Otherwise either call job_create directly (proctrack_forked) or
spawn the worker thread that calls it and stores the result into
step->cont_id before the handshake completes.  The function returns
SLURM_SUCCESS on every path. -/
def proctrack_p_create (env : CreateEnv) (step : StepRec) : CreateOutcome :=
  if step.cont_id ≠ 0 then
    { rc := Result.success, cont_id := step.cont_id, createCalls := 0,
      workerSpawned := false }
  else if env.proctrack_forked then
    { rc := Result.success, cont_id := env.create_result, createCalls := 1,
      workerSpawned := false }
  else
    { rc := Result.success, cont_id := env.create_result, createCalls := 1,
      workerSpawned := true }

/-- Environment for proctrack_p_signal: result of the job_killjid(id, sig)
call (`none` = success, `some e` = negative return with errno e). -/
structure SignalEnv where
  killResult : Option Errno

/-- Observable outcome of proctrack_p_signal: return code, worker-pending
flag on return, and whether job_killjid was invoked. -/
structure SignalOutcome where
  rc : Result
  workerPending : Bool
  killCalled : Bool
deriving DecidableEq, Repr

/-- proctrack_p_signal(id, sig): if no worker is pending, call job_killjid
and fail only when it fails with an errno other than ENODATA / EBADF; if a
worker is pending and sig is SIGKILL, retire the worker
(_end_container_thread) and return success; otherwise log the misuse and
return success. -/
def proctrack_p_signal (env : SignalEnv) (tid : Bool) (sig : Nat) :
    SignalOutcome :=
  if tid = false then
    match env.killResult with
    | none =>
      { rc := Result.success, workerPending := false, killCalled := true }
    | some e =>
      if e = Errno.ENODATA ∨ e = Errno.EBADF then
        { rc := Result.success, workerPending := false, killCalled := true }
      else
        { rc := Result.error, workerPending := false, killCalled := true }
  else if sig = SIGKILL then
    { rc := Result.success, workerPending := false, killCalled := false }
  else
    { rc := Result.success, workerPending := tid, killCalled := false }

/-- Observable outcome of proctrack_p_destroy / proctrack_p_wait: return
code and whether job_waitjid was invoked. -/
structure WaitOutcome where
  rc : Result
  waitCalled : Bool
deriving DecidableEq, Repr

/-- proctrack_p_destroy(id): if no worker is pending, call job_waitjid and
discard its outcome (`waitOk`); return SLURM_SUCCESS unconditionally. -/
def proctrack_p_destroy (_waitOk : Bool) (tid : Bool) : WaitOutcome :=
  if tid = false then
    { rc := Result.success, waitCalled := true }
  else
    { rc := Result.success, waitCalled := false }

/-- proctrack_p_wait(id): return SLURM_ERROR exactly when no worker is
pending and the job_waitjid call fails (`waitOk` = false), SLURM_SUCCESS
otherwise; job_waitjid is only invoked when no worker is pending. -/
def proctrack_p_wait (waitOk : Bool) (tid : Bool) : WaitOutcome :=
  if tid = false then
    if waitOk then
      { rc := Result.success, waitCalled := true }
    else
      { rc := Result.error, waitCalled := true }
  else
    { rc := Result.success, waitCalled := false }

/-- Fixed slack added to the queried member count when sizing the pid list
buffer ("+ 128" in the source). -/
def FIXED_SLACK : Nat := 128

/-- Environment for proctrack_p_get_pids: `pidcnt` the job_getpidcnt
result, `pidlist` the job_getpidlist result (on success the pids currently
in the container, of which the call can return at most the buffer
capacity; on failure the errno). -/
structure PidsEnv where
  pidcnt : Int
  pidlist : Except Errno (List Nat)

/-- Observable outcome of proctrack_p_get_pids: return code, the returned
pid array (`none` models the NULL pointer), the returned count, whether
job_getpidlist was invoked, and the entry capacity of the buffer passed to
it. -/
structure PidsOutcome where
  rc : Result
  pids : Option (List Nat)
  npids : Nat
  listCalled : Bool
  capacity : Nat
deriving DecidableEq, Repr

/-- proctrack_p_get_pids(cont_id): query job_getpidcnt first; if positive,
allocate a buffer of pidcnt + 128 entries and call job_getpidlist into it
(so at most pidcnt + 128 pids are returned); on list failure return the
empty result, with success iff errno is ENODATA; if the count is not
positive return the empty result with success and no list call. -/
def proctrack_p_get_pids (env : PidsEnv) : PidsOutcome :=
  if env.pidcnt > 0 then
    let cap := env.pidcnt.toNat + FIXED_SLACK
    match env.pidlist with
    | Except.error e =>
      if e = Errno.ENODATA then
        { rc := Result.success, pids := none, npids := 0,
          listCalled := true, capacity := cap }
      else
        { rc := Result.error, pids := none, npids := 0,
          listCalled := true, capacity := cap }
    | Except.ok l =>
      let got := l.take cap
      { rc := Result.success, pids := some got, npids := got.length,
        listCalled := true, capacity := cap }
  else
    { rc := Result.success, pids := none, npids := 0,
      listCalled := false, capacity := 0 }

/-- A sample step record with a non-zero container id, used to evaluate the
operations at concrete inputs. -/
def stepX : StepRec :=
  { cont_id := 7, uid := 100, het_job_id := 0, job_id := 42, step_id := 1 }

/-- Concrete add environment: first attach fails with EINVAL, the pid is in
container 5 (not the target), detaching succeeds, the retried attach and
every later call succeed. -/
def envRetry : AddEnv :=
  { proctrack_forked := false,
    attachResult := fun n => if n = 0 then some Errno.EINVAL else none,
    getjid := some 5, detachResult := some 3,
    setapidOk := true, openOk := true, writeOk := true }

/-- Concrete add environment: every attach fails with EINVAL and the pid is
already in the target container (job_getjid reports 7 = stepX.cont_id). -/
def envAlready : AddEnv :=
  { proctrack_forked := false,
    attachResult := fun _ => some Errno.EINVAL,
    getjid := some 7, detachResult := none,
    setapidOk := true, openOk := true, writeOk := true }

/-- Concrete add environment for the forked path: no platform attach call
is made and the tail calls all succeed. -/
def envForked : AddEnv :=
  { proctrack_forked := true,
    attachResult := fun _ => none,
    getjid := none, detachResult := none,
    setapidOk := true, openOk := true, writeOk := true }

/-- Concrete create environment. -/
def envCreate : CreateEnv :=
  { proctrack_forked := false, create_result := 11 }

/-- Concrete signal environment in which job_killjid succeeds. -/
def envKillOk : SignalEnv := { killResult := none }

/-- Concrete enumeration environment: the count reports 2 members and the
list call finds 3 (one forked in between). -/
def envPids : PidsEnv := { pidcnt := 2, pidlist := Except.ok [10, 11, 12] }

/-- Projection lemma: the tail of proctrack_p_add reports exactly the
attach-call count it was entered with. -/
theorem add_after_attach_attachCalls (env : AddEnv) (step : StepRec)
    (tid : Bool) (a d : Nat) :
    (add_after_attach env step tid a d).attachCalls = a := by
  unfold add_after_attach; split_ifs <;> rfl

/-- Projection lemma: the tail of proctrack_p_add reports exactly the
detach-call count it was entered with. -/
theorem add_after_attach_detachCalls (env : AddEnv) (step : StepRec)
    (tid : Bool) (a d : Nat) :
    (add_after_attach env step tid a d).detachCalls = d := by
  unfold add_after_attach; split_ifs <;> rfl

/-- Projection lemma: after _end_container_thread no worker is pending on
any path through the tail of proctrack_p_add. -/
theorem add_after_attach_workerPending (env : AddEnv) (step : StepRec)
    (tid : Bool) (a d : Nat) :
    (add_after_attach env step tid a d).workerPending = false := by
  unfold add_after_attach; split_ifs <;> rfl

/-- Projection lemma: the tail of proctrack_p_add joins the worker exactly
when one was pending at the _end_container_thread call. -/
theorem add_after_attach_joined (env : AddEnv) (step : StepRec)
    (tid : Bool) (a d : Nat) :
    (add_after_attach env step tid a d).joined = tid := by
  unfold add_after_attach; split_ifs <;> rfl

/-- Projection lemma: the tail of proctrack_p_add leaves step->cont_id
unchanged. -/
theorem add_after_attach_cont_id (env : AddEnv) (step : StepRec)
    (tid : Bool) (a d : Nat) :
    (add_after_attach env step tid a d).cont_id = step.cont_id := by
  unfold add_after_attach; split_ifs <;> rfl

/-- Every iteration of the try_again loop leaves step->cont_id unchanged. -/
theorem add_from_cont_id (env : AddEnv) (step : StepRec) (tid : Bool)
    (count : Nat) : (add_from env step tid count).cont_id = step.cont_id := by
  induction count using add_from.induct env step tid with
  | _ =>
    rw [add_from]
    first
      | (simp_all [add_after_attach_cont_id]; split_ifs <;> simp_all)
      | simp_all [add_after_attach_cont_id]

/-- Every iteration of the try_again loop that returns SLURM_SUCCESS other
than the idempotent already-attached early return (which is only reachable
with count = 0) passes through _end_container_thread, so it leaves no
worker pending and joins the worker iff one was pending. -/
theorem add_from_success_retires (env : AddEnv) (step : StepRec) (tid : Bool)
    (count : Nat)
    (hs : (add_from env step tid count).rc = Result.success)
    (hnot : ¬(count = 0 ∧ env.proctrack_forked = false ∧
              env.attachResult 0 = some Errno.EINVAL ∧
              proctrack_p_has_pid env.getjid step.cont_id = true)) :
    (add_from env step tid count).workerPending = false ∧
    (add_from env step tid count).joined = tid := by
  induction count using add_from.induct env step tid with
  | case1 x hfork =>
    rw [add_from]
    simp only [hfork, if_true]
    exact ⟨add_after_attach_workerPending .., add_after_attach_joined ..⟩
  | case2 x hfork hnone =>
    rw [add_from]
    simp only [hfork, hnone, Bool.false_eq_true, if_false]
    exact ⟨add_after_attach_workerPending .., add_after_attach_joined ..⟩
  | case3 x hfork e hsome hguard hp =>
    obtain ⟨he, hx⟩ := hguard
    subst he
    interval_cases x
    exact absurd ⟨rfl, by simpa using hfork, hsome, hp⟩ hnot
  | case4 x hfork e hsome hguard hp _jid hdet ih =>
    obtain ⟨he, hx⟩ := hguard
    subst he
    rw [add_from] at hs ⊢
    simp only [hfork, Bool.false_eq_true, if_false, hsome] at hs ⊢
    rw [dif_pos (by simp [hx])] at hs ⊢
    simp only [Bool.not_eq_true] at hp
    simp only [hp, Bool.false_eq_true, if_false, hdet] at hs ⊢
    exact ih hs (by omega)
  | case5 x hfork e hsome hguard hp hdet =>
    obtain ⟨he, hx⟩ := hguard
    subst he
    rw [add_from] at hs
    simp only [hfork, Bool.false_eq_true, if_false, hsome] at hs
    rw [dif_pos (by simp [hx])] at hs
    simp only [Bool.not_eq_true] at hp
    simp only [hp, Bool.false_eq_true, if_false, hdet] at hs
    exact absurd hs (by simp)
  | case6 x hfork e hsome hguard =>
    rw [add_from] at hs
    simp only [hfork, Bool.false_eq_true, if_false, hsome] at hs
    rw [dif_neg hguard] at hs
    exact absurd hs (by simp)

/-- C1: when the first job_attachpid call fails with EINVAL,
proctrack_p_add returns success without any detach if the pid is already in
the target container; otherwise, once job_detachpid succeeds, it performs
exactly one detach and exactly one retried attach, and a failure of that
single retry is reported as SLURM_ERROR with no further attach; a first
failure with any errno other than EINVAL is reported as SLURM_ERROR
immediately, with no retry and no detach. -/
theorem add_einval_retry_protocol (env : AddEnv) (step : StepRec)
    (tid : Bool) (hf : env.proctrack_forked = false) (e : Errno)
    (h0 : env.attachResult 0 = some e) :
    (e = Errno.EINVAL →
      (proctrack_p_has_pid env.getjid step.cont_id = true →
        (proctrack_p_add env step tid).rc = Result.success ∧
        (proctrack_p_add env step tid).detachCalls = 0 ∧
        (proctrack_p_add env step tid).attachCalls = 1) ∧
      (proctrack_p_has_pid env.getjid step.cont_id = false →
        ∀ j, env.detachResult = some j →
          (proctrack_p_add env step tid).detachCalls = 1 ∧
          (proctrack_p_add env step tid).attachCalls = 2 ∧
          (∀ e2, env.attachResult 1 = some e2 →
            (proctrack_p_add env step tid).rc = Result.error))) ∧
    (e ≠ Errno.EINVAL →
      (proctrack_p_add env step tid).rc = Result.error ∧
      (proctrack_p_add env step tid).attachCalls = 1 ∧
      (proctrack_p_add env step tid).detachCalls = 0) := by
  constructor
  · intro he
    subst he
    constructor
    · intro hp
      simp [proctrack_p_add, add_from, hf, h0, hp]
    · intro hp j hd
      rw [proctrack_p_add, add_from]
      simp only [hf, h0, hp, hd]
      rw [add_from]
      simp only [hf]
      cases h1 : env.attachResult 1 with
      | none =>
        simp [h1, add_after_attach_attachCalls, add_after_attach_detachCalls]
      | some e2 =>
        simp [h1]
  · intro he
    simp [proctrack_p_add, add_from, hf, h0, he]

/-- C1 witness: in envRetry (first attach EINVAL, pid mis-attached to
container 5, detach succeeds) the call performs exactly one detach and two
attach calls. -/
theorem add_einval_retry_protocol_witness :
    (proctrack_p_add envRetry stepX false).detachCalls = 1 ∧
    (proctrack_p_add envRetry stepX false).attachCalls = 2 :=
  ⟨(((add_einval_retry_protocol envRetry stepX false rfl Errno.EINVAL
        rfl).1 rfl).2 rfl 3 rfl).1,
   (((add_einval_retry_protocol envRetry stepX false rfl Errno.EINVAL
        rfl).1 rfl).2 rfl 3 rfl).2.1⟩

/-- C2: proctrack_p_create on a step whose container id is already non-zero
makes no job_create call, leaves the id unchanged and returns
SLURM_SUCCESS. -/
theorem create_nonzero_id_noop (env : CreateEnv) (step : StepRec)
    (h : step.cont_id ≠ 0) :
    (proctrack_p_create env step).rc = Result.success ∧
    (proctrack_p_create env step).cont_id = step.cont_id ∧
    (proctrack_p_create env step).createCalls = 0 := by
  simp [proctrack_p_create, h]

/-- C2 witness: creating over stepX (cont_id 7) is a successful no-op. -/
theorem create_nonzero_id_noop_witness :
    (proctrack_p_create envCreate stepX).rc = Result.success ∧
    (proctrack_p_create envCreate stepX).cont_id = stepX.cont_id ∧
    (proctrack_p_create envCreate stepX).createCalls = 0 :=
  create_nonzero_id_noop envCreate stepX (by decide)

/-- C3 counterexample: with a worker pending, an add call whose first
attach fails with EINVAL while the pid is already in the target container
returns SLURM_SUCCESS yet leaves the worker pending and never joins it. -/
theorem add_success_can_leave_worker_pending :
    (proctrack_p_add envAlready stepX true).rc = Result.success ∧
    (proctrack_p_add envAlready stepX true).workerPending = true ∧
    (proctrack_p_add envAlready stepX true).joined = false := by
  simp [proctrack_p_add, add_from, envAlready, stepX, proctrack_p_has_pid]

/-- C3 (amended): every proctrack_p_add call that returns SLURM_SUCCESS,
except the idempotent early return taken when the first attach fails with
EINVAL and the pid is already a member of the target container, passes
through _end_container_thread before returning: no worker is pending
afterwards and a pending worker is joined. -/
theorem add_success_retires_worker (env : AddEnv) (step : StepRec)
    (tid : Bool)
    (hs : (proctrack_p_add env step tid).rc = Result.success)
    (hnot : ¬(env.proctrack_forked = false ∧
              env.attachResult 0 = some Errno.EINVAL ∧
              proctrack_p_has_pid env.getjid step.cont_id = true)) :
    (proctrack_p_add env step tid).workerPending = false ∧
    (proctrack_p_add env step tid).joined = tid := by
  unfold proctrack_p_add at *
  exact add_from_success_retires env step tid 0 hs (by tauto)

/-- C3 witness: a successful forked-path add with a worker pending retires
and joins it. -/
theorem add_success_retires_worker_witness :
    (proctrack_p_add envForked stepX true).workerPending = false ∧
    (proctrack_p_add envForked stepX true).joined = true :=
  add_success_retires_worker envForked stepX true
    (by simp [proctrack_p_add, add_from, add_after_attach, envForked])
    (by simp [envForked])

/-- C10: proctrack_p_add only reads step->cont_id; on every path, success
or error, the step's container id on return equals its value at entry. -/
theorem add_preserves_cont_id (env : AddEnv) (step : StepRec) (tid : Bool) :
    (proctrack_p_add env step tid).cont_id = step.cont_id := by
  unfold proctrack_p_add
  exact add_from_cont_id env step tid 0

/-- C4: proctrack_p_signal with a pending worker and sig = SIGKILL (the
termination signal the code recognizes) retires the worker and returns
success without calling job_killjid; with a pending worker and any other
signal it returns success without calling job_killjid (the misuse is only
logged); with no pending worker it calls job_killjid, normalizing the
ENODATA and EBADF failures to success and returning SLURM_ERROR on any
other failure. -/
theorem signal_worker_pending_spec (env : SignalEnv) (tid : Bool)
    (sig : Nat) :
    (tid = true → sig = SIGKILL →
      (proctrack_p_signal env tid sig).rc = Result.success ∧
      (proctrack_p_signal env tid sig).workerPending = false ∧
      (proctrack_p_signal env tid sig).killCalled = false) ∧
    (tid = true → sig ≠ SIGKILL →
      (proctrack_p_signal env tid sig).rc = Result.success ∧
      (proctrack_p_signal env tid sig).killCalled = false) ∧
    (tid = false →
      (proctrack_p_signal env tid sig).killCalled = true ∧
      (env.killResult = none →
        (proctrack_p_signal env tid sig).rc = Result.success) ∧
      (∀ e, env.killResult = some e →
        ((e = Errno.ENODATA ∨ e = Errno.EBADF) →
          (proctrack_p_signal env tid sig).rc = Result.success) ∧
        (¬(e = Errno.ENODATA ∨ e = Errno.EBADF) →
          (proctrack_p_signal env tid sig).rc = Result.error))) := by
  refine ⟨?_, ?_, ?_⟩
  · intro ht hsig
    subst ht hsig
    simp [proctrack_p_signal, SIGKILL]
  · intro ht hsig
    subst ht
    simp [proctrack_p_signal, hsig]
  · intro ht
    subst ht
    refine ⟨?_, ?_, ?_⟩
    · cases hk : env.killResult with
      | none => simp [proctrack_p_signal, hk]
      | some e =>
        by_cases hb : e = Errno.ENODATA ∨ e = Errno.EBADF <;>
          simp [proctrack_p_signal, hk, hb]
    · intro hk
      simp [proctrack_p_signal, hk]
    · intro e hk
      constructor <;> intro hb <;> simp [proctrack_p_signal, hk, hb]

/-- C4 witness: SIGKILL against a container with a pending worker returns
success, clears the pending worker and delivers no kernel signal. -/
theorem signal_worker_pending_spec_witness :
    (proctrack_p_signal envKillOk true SIGKILL).rc = Result.success ∧
    (proctrack_p_signal envKillOk true SIGKILL).workerPending = false ∧
    (proctrack_p_signal envKillOk true SIGKILL).killCalled = false :=
  (signal_worker_pending_spec envKillOk true SIGKILL).1 rfl rfl

/-- C5: proctrack_p_destroy returns SLURM_SUCCESS for every worker-pending
state and every outcome of the underlying job_waitjid call. -/
theorem destroy_always_success (waitOk tid : Bool) :
    (proctrack_p_destroy waitOk tid).rc = Result.success := by
  unfold proctrack_p_destroy
  split_ifs <;> rfl

/-- C6: proctrack_p_wait with a pending worker returns SLURM_SUCCESS
without invoking job_waitjid; with no pending worker it invokes job_waitjid
and returns SLURM_ERROR exactly when that call fails. -/
theorem wait_spec (waitOk tid : Bool) :
    (tid = true →
      proctrack_p_wait waitOk tid =
        { rc := Result.success, waitCalled := false }) ∧
    (tid = false →
      (proctrack_p_wait waitOk tid).waitCalled = true ∧
      ((proctrack_p_wait waitOk tid).rc = Result.error ↔ waitOk = false)) := by
  constructor
  · intro ht
    subst ht
    simp [proctrack_p_wait]
  · intro ht
    subst ht
    cases waitOk <;> simp [proctrack_p_wait]

/-- C6 witness: with a pending worker and a failing platform wait,
proctrack_p_wait still returns success immediately without calling
job_waitjid. -/
theorem wait_spec_witness :
    proctrack_p_wait false true =
      { rc := Result.success, waitCalled := false } :=
  (wait_spec false true).1 rfl

/-- C7: proctrack_p_get_pids sizes its buffer from the count queried first:
with a non-positive count it returns success with a null list and zero
count without calling job_getpidlist; with a positive count it calls
job_getpidlist with a buffer of pidcnt + 128 entries, returns success with
the empty result on an ENODATA failure, SLURM_ERROR on any other failure,
and on success returns at most pidcnt + 128 pids. -/
theorem get_pids_spec (env : PidsEnv) :
    (env.pidcnt ≤ 0 →
      proctrack_p_get_pids env =
        { rc := Result.success, pids := none, npids := 0,
          listCalled := false, capacity := 0 }) ∧
    (0 < env.pidcnt →
      (proctrack_p_get_pids env).listCalled = true ∧
      (proctrack_p_get_pids env).capacity = env.pidcnt.toNat + FIXED_SLACK ∧
      (env.pidlist = Except.error Errno.ENODATA →
        (proctrack_p_get_pids env).rc = Result.success ∧
        (proctrack_p_get_pids env).pids = none ∧
        (proctrack_p_get_pids env).npids = 0) ∧
      (∀ e, env.pidlist = Except.error e → e ≠ Errno.ENODATA →
        (proctrack_p_get_pids env).rc = Result.error ∧
        (proctrack_p_get_pids env).pids = none ∧
        (proctrack_p_get_pids env).npids = 0) ∧
      (∀ l, env.pidlist = Except.ok l →
        (proctrack_p_get_pids env).rc = Result.success ∧
        (proctrack_p_get_pids env).npids ≤ env.pidcnt.toNat + FIXED_SLACK)) := by
  constructor
  · intro hle
    have hnp : ¬env.pidcnt > 0 := by omega
    simp [proctrack_p_get_pids, hnp]
  · intro hpos
    refine ⟨?_, ?_, ?_, ?_, ?_⟩
    · cases hl : env.pidlist with
      | error e =>
        by_cases he : e = Errno.ENODATA <;>
          simp [proctrack_p_get_pids, hpos, hl, he]
      | ok l => simp [proctrack_p_get_pids, hpos, hl]
    · cases hl : env.pidlist with
      | error e =>
        by_cases he : e = Errno.ENODATA <;>
          simp [proctrack_p_get_pids, hpos, hl, he]
      | ok l => simp [proctrack_p_get_pids, hpos, hl]
    · intro hl
      simp [proctrack_p_get_pids, hpos, hl]
    · intro e hl he
      simp [proctrack_p_get_pids, hpos, hl, he]
    · intro l hl
      refine ⟨by simp [proctrack_p_get_pids, hpos, hl], ?_⟩
      have : (proctrack_p_get_pids env).npids =
          (l.take (env.pidcnt.toNat + FIXED_SLACK)).length := by
        simp [proctrack_p_get_pids, hpos, hl]
      rw [this]
      simp [List.length_take_le (env.pidcnt.toNat + FIXED_SLACK) l]

/-- C7 witness: with a queried count of 2 and a list call that finds three
members, the call succeeds and returns at most 2 + 128 pids. -/
theorem get_pids_spec_witness :
    (proctrack_p_get_pids envPids).rc = Result.success ∧
    (proctrack_p_get_pids envPids).npids ≤
      envPids.pidcnt.toNat + FIXED_SLACK :=
  ((get_pids_spec envPids).2 (by decide)).2.2.2.2 [10, 11, 12] rfl

/-- C8: proctrack_p_has_pid returns true exactly when the job_getjid lookup
succeeds and reports the target container id, and returns false (not an
error) when the lookup fails. -/
theorem has_pid_iff_lookup_matches (getjid : Option Nat) (cont_id : Nat) :
    (proctrack_p_has_pid getjid cont_id = true ↔ getjid = some cont_id) ∧
    proctrack_p_has_pid none cont_id = false := by
  constructor
  · cases getjid with
    | none => simp [proctrack_p_has_pid]
    | some j => simp [proctrack_p_has_pid]
  · rfl

end SlurmProctrack
